import Mathlib

/-!
Shallow embedding of `.github/workflows/scripts/comment_pr.py`.

The script posts or updates a coverage-report comment on a pull request.
External effects (filesystem reads, JSON parsing of the event payload, the
three HTTP endpoints) are modelled by a `World` of oracles fixed for one
invocation; each operation returns its result together with the list of
HTTP requests it issued and the stdout/stderr lines it printed.  An
uncaught Python exception is modelled by the `.error` branch of `Except`.
-/

namespace CommentPr

/-- Substring test on character lists: `containsSub needle hay` is true iff
`needle` occurs contiguously in `hay`.  This models the Python
expression `needle in hay` on strings. -/
def containsSub : List Char → List Char → Bool
  | needle, [] => needle.isEmpty
  | needle, c :: rest => needle.isPrefixOf (c :: rest) || containsSub needle rest

/-- `containsStr hay pat` models Python `pat in hay`. -/
def containsStr (hay pat : String) : Bool :=
  containsSub pat.data hay.data

/-- Models Python `s.replace('%', '%25')`: a single-character pattern
replace expands each `'%'` into the three characters `%25` and leaves
every other character unchanged. -/
def encodePercent : List Char → List Char
  | [] => []
  | c :: rest =>
      if c = '%' then '%' :: '2' :: '5' :: encodePercent rest
      else c :: encodePercent rest

/-- String-level wrapper of `encodePercent`; the embedding of
`coverage.replace('%', '%25')`. -/
def pyReplacePercent (s : String) : String :=
  String.mk (encodePercent s.data)

/-- A character list has no "bare" percent sign iff every occurrence of
`'%'` is immediately followed by the two characters `25`. -/
def noBarePercent : List Char → Bool
  | [] => true
  | c :: rest =>
      ((c != '%') || (['2', '5'].isPrefixOf rest)) && noBarePercent rest

/-- Accumulating decimal-digit run parser: `none` until at least one digit
has been consumed, `none` forever after a non-digit. -/
def parseDigits : List Char → Option Nat → Option Nat
  | [], acc => acc
  | c :: rest, acc =>
      if c.isDigit then
        parseDigits rest (some ((acc.getD 0) * 10 + (c.toNat - 48)))
      else none

/-- Models Python `int(s)` on decimal string literals: surrounding
whitespace is stripped, an optional single leading sign is accepted, and
the remainder must be a non-empty digit run; otherwise the call raises
`ValueError` (here: `none`). -/
def pyInt? (s : String) : Option Int :=
  match ((s.data.dropWhile Char.isWhitespace).reverse.dropWhile
      Char.isWhitespace).reverse with
  | '+' :: rest => (parseDigits rest none).map Int.ofNat
  | '-' :: rest => (parseDigits rest none).map (fun n => -(n : Int))
  | t => (parseDigits t none).map Int.ofNat

/-- The marker text that `find_existing_comment` scans comment bodies for,
and that `generate_comment_body` embeds in the heading. -/
def markerText : String := "Go Test Coverage Report"

/-- The two repository names extracted from the event payload:
`pull_request.head.repo.full_name` and `pull_request.base.repo.full_name`,
each `none` when any key on its `.get` chain is missing. -/
structure EventPayload where
  headRepoFullName : Option String
  baseRepoFullName : Option String
deriving DecidableEq, Repr

/-- One comment as returned by the list endpoint: `id` (always present in
a well-formed service response), `user.type` (absent when `user` or
`type` is missing) and `body` (absent when missing). -/
structure Comment where
  id : Int
  userType : Option String
  body : Option String
deriving DecidableEq, Repr

/-- The HTTP requests the script can issue. -/
inductive Request where
  | getComments (repo : String) (prNumber : Int)
  | postComment (repo : String) (prNumber : Int) (body : String)
  | patchComment (repo : String) (commentId : Int) (body : String)
deriving DecidableEq, Repr

/-- The external world fixed for one invocation: command line, environment
variables, filesystem contents, the verdict of the JSON parser on file
contents, and the responses of the three HTTP endpoints. -/
structure World where
  argv : List String
  githubToken : Option String
  githubRepository : Option String
  githubEventPath : Option String
  fs : String → Option String
  parseEventJson : String → Option EventPayload
  listCommentsResponse : String → Int → Except Unit (List Comment)
  postResponse : String → Int → String → Bool
  patchResponse : String → Int → String → Bool

/-- `read_file`: returns the contents of the file, or the empty string plus a
stderr warning when the file does not exist. -/
def read_file (fs : String → Option String) (filePath : String) :
    String × List String :=
  match fs filePath with
  | some content => (content, [])
  | none => ("", ["Warning: File " ++ filePath ++ " not found"])

/-- `generate_comment_body`: reads the detailed report (empty on a missing
file), percent-encodes the coverage value for the badge URL, and renders
the fixed markdown template.  Returns the body and the stderr lines of
the file read. -/
def generate_comment_body (fs : String → Option String)
    (coverage emoji status badge_color coverage_report_path : String) :
    String × List String :=
  let rf := read_file fs coverage_report_path
  let coverage_encoded := pyReplacePercent coverage
  ("## " ++ emoji ++ " " ++ markerText ++ "\n\n" ++
   "**Total Coverage:** `" ++ coverage ++ "` (" ++ status ++ ")" ++ "\n\n" ++
   "![Coverage](https://img.shields.io/badge/coverage-" ++ coverage_encoded ++
     "-" ++ badge_color ++ ")" ++ "\n\n" ++
   "<details>\n<summary>üìä Detailed Coverage Report (click to expand)</summary>\n\n" ++
   rf.1 ++
   "\n\n</details>\n\n### Coverage Guidelines\n" ++
   "- üü¢ >= 80%: Excellent\n" ++
   "- üü° >= 60%: Good\n" ++
   "- üü† >= 40%: Fair\n" ++
   "- üî¥ < 40%: Needs improvement\n\n---\n" ++
   "*This is an automated coverage report. The coverage requirement is advisory and does not block PR merging.*\n",
   rf.2)

/-- The predicate of the locator scan:
`comment.get("user").get("type") == "Bot"` (each step defaulted) and the
marker occurs in the body, defaulted to the empty string. -/
def commentMatches (c : Comment) : Bool :=
  c.userType == some "Bot" && containsStr (c.body.getD "") markerText

/-- The `for` loop of `find_existing_comment`: first match wins, returning
the `id` of that comment. -/
def scanComments : List Comment → Option Int
  | [] => none
  | c :: rest => if commentMatches c then some c.id else scanComments rest

/-- Result of `find_existing_comment`: the optional comment id, the
requests issued, and the stderr lines printed. -/
structure FindResult where
  found : Option Int
  requests : List Request
  stderr : List String
deriving Repr

/-- `find_existing_comment`: one GET of the comment list of the PR; on success
scan for the first bot comment containing the marker; on a request
failure print a diagnostic and fall through to `None`. -/
def find_existing_comment (w : World) (token repo : String) (prNumber : Int) :
    FindResult :=
  match w.listCommentsResponse repo prNumber with
  | .ok comments =>
      ⟨scanComments comments, [.getComments repo prNumber], []⟩
  | .error _ =>
      ⟨none, [.getComments repo prNumber], ["Error fetching comments"]⟩

/-- Result of a write operation (`post_comment` / `update_comment`). -/
structure WriteResult where
  ok : Bool
  requests : List Request
  stdout : List String
  stderr : List String
deriving Repr

/-- `post_comment`: one POST to the comments endpoint of the PR; prints a
success line on 2xx, a diagnostic on failure. -/
def post_comment (w : World) (token repo : String) (prNumber : Int)
    (body : String) : WriteResult :=
  if w.postResponse repo prNumber body then
    ⟨true, [.postComment repo prNumber body],
     ["‚úÖ Coverage comment posted successfully"], []⟩
  else
    ⟨false, [.postComment repo prNumber body], [], ["Error posting comment"]⟩

/-- `update_comment`: one PATCH to the endpoint of the comment (addressed by
comment id); prints a success line on 2xx, a diagnostic on failure. -/
def update_comment (w : World) (token repo : String) (commentId : Int)
    (body : String) : WriteResult :=
  if w.patchResponse repo commentId body then
    ⟨true, [.patchComment repo commentId body],
     ["‚úÖ Coverage comment updated successfully"], []⟩
  else
    ⟨false, [.patchComment repo commentId body], [],
     ["Error updating comment"]⟩

/-- `is_fork_pr`: open and JSON-parse the event file, extract the two
`full_name` values through defaulted `.get` chains, and compare.  A
missing file or a parse failure is caught, warned about, and answered
with `False` (fail-open).  The `parseEventJson` oracle covers absent,
undecodable and object-shaped event files only; on a valid JSON document
of non-object shape the source instead raises an uncaught AttributeError
at the `.get` chain, a crash path recorded in the C6 analysis and not
reproduced by this definition. -/
def is_fork_pr (w : World) (eventPath : String) : Bool × List String :=
  match w.fs eventPath with
  | none =>
      (false, ["Warning: Could not determine if fork PR: file not found"])
  | some content =>
      match w.parseEventJson content with
      | none =>
          (false,
           ["Warning: Could not determine if fork PR: JSON decode error"])
      | some p => (p.headRepoFullName != p.baseRepoFullName, [])

/-- Python truthiness of an optional string: `None` and `""` are falsy. -/
def truthyOpt : Option String → Bool
  | none => false
  | some s => s != ""

/-- Python truthiness of `Optional[int]`: `None` and `0` are falsy. -/
def truthyOptInt : Option Int → Bool
  | none => false
  | some n => n != 0

/-- An uncaught Python exception reaching the process boundary. -/
inductive PyError where
  | uncaught (msg : String)
deriving DecidableEq, Repr

/-- Observable outcome of a run that terminated via `sys.exit`. -/
structure RunResult where
  exitCode : Nat
  requests : List Request
  stdout : List String
  stderr : List String
deriving Repr

/-- `sys.argv[i]` (the used indices are always in range on the paths that
read them). -/
def argOf (w : World) (i : Nat) : String := w.argv.getD i ""

/-- The token string once validated truthy. -/
def tokenOf (w : World) : String := w.githubToken.getD ""

/-- The repository string once validated truthy. -/
def repoOf (w : World) : String := w.githubRepository.getD ""

/-- Models `os.environ.get` of GITHUB_EVENT_PATH with default empty. -/
def eventPathOf (w : World) : String := w.githubEventPath.getD ""

/-- Models `sys.argv[6] if len(sys.argv) > 6 else` the default report path. -/
def reportPathOf (w : World) : String :=
  if 6 < w.argv.length then w.argv.getD 6 "" else "coverage_report.md"

/-- The comment body the run generates from its arguments and the
filesystem. -/
def bodyOf (w : World) : String :=
  (generate_comment_body w.fs (argOf w 2) (argOf w 3) (argOf w 4)
    (argOf w 5) (reportPathOf w)).1

def usageMsg : String :=
  "Usage: comment_pr.py <pr_number> <coverage> <emoji> <status> <badge_color> [coverage_report_path]"

def tokenErrMsg : String :=
  "Error: GITHUB_TOKEN environment variable not set"

def repoErrMsg : String :=
  "Error: GITHUB_REPOSITORY environment variable not set"

def forkSkipMsg : String :=
  "‚ÑπÔ∏è  Fork PR detected - skipping comment (no write permissions)"

/-- Final phase of `main`: generate the body, locate an existing comment,
then PATCH it when the located id is truthy, otherwise POST a new
comment; the exit code is 0 iff the write reported success. -/
def mainComment (w : World) (prNumber : Int) (priorStderr : List String) :
    Except PyError RunResult :=
  let gen := generate_comment_body w.fs (argOf w 2) (argOf w 3) (argOf w 4)
    (argOf w 5) (reportPathOf w)
  let fr := find_existing_comment w (tokenOf w) (repoOf w) prNumber
  if truthyOptInt fr.found then
    let cid := fr.found.getD 0
    let ur := update_comment w (tokenOf w) (repoOf w) cid gen.1
    .ok ⟨if ur.ok then 0 else 1,
         fr.requests ++ ur.requests,
         ("Found existing comment (ID: " ++ toString cid ++ "), updating...")
           :: ur.stdout,
         priorStderr ++ gen.2 ++ fr.stderr ++ ur.stderr⟩
  else
    let po := post_comment w (tokenOf w) (repoOf w) prNumber gen.1
    .ok ⟨if po.ok then 0 else 1,
         fr.requests ++ po.requests,
         "No existing comment found, creating new one..." :: po.stdout,
         priorStderr ++ gen.2 ++ fr.stderr ++ po.stderr⟩

/-- Fork guard of `main`: when the event path is non-empty and
`is_fork_pr` answers true, print the informational line and exit 0
without any request; otherwise continue, keeping any fork-check
warnings (none are printed when the event path is empty, since Python
short-circuits the conjunction). -/
def mainChecked (w : World) (prNumber : Int) : Except PyError RunResult :=
  let ep := eventPathOf w
  let fc := is_fork_pr w ep
  if (ep != "") && fc.1 then
    .ok ⟨0, [], [forkSkipMsg], fc.2⟩
  else
    mainComment w prNumber (if ep != "" then fc.2 else [])

/-- Credential validation of `main`: a missing or empty token or
repository variable exits 1 before any request. -/
def mainWithArgs (w : World) (prNumber : Int) : Except PyError RunResult :=
  if truthyOpt w.githubToken = false then
    .ok ⟨1, [], [], [tokenErrMsg]⟩
  else if truthyOpt w.githubRepository = false then
    .ok ⟨1, [], [], [repoErrMsg]⟩
  else
    mainChecked w prNumber

/-- `main`: usage check on the argument count, then `int(sys.argv[1])`
(whose failure is an uncaught `ValueError`), then credential checks,
fork guard and the write phase. -/
def main (w : World) : Except PyError RunResult :=
  if w.argv.length < 6 then
    .ok ⟨1, [], [], [usageMsg]⟩
  else
    match pyInt? (argOf w 1) with
    | none => .error (.uncaught "ValueError: invalid literal for int")
    | some prNumber => mainWithArgs w prNumber

/-- Requests issued by a completed run (an uncaught exception is not a
completed run). -/
def requestsOfE : Except PyError RunResult → List Request
  | .ok r => r.requests
  | .error _ => []

/-- Exit code of a run; an uncaught exception makes the interpreter exit
with code 1. -/
def exitOfE : Except PyError RunResult → Nat
  | .ok r => r.exitCode
  | .error _ => 1

/-- Stdout of a completed run. -/
def stdoutOfE : Except PyError RunResult → List String
  | .ok r => r.stdout
  | .error _ => []

/-- True iff the run terminated via `sys.exit` rather than an uncaught
exception. -/
def completedOk : Except PyError RunResult → Bool
  | .ok _ => true
  | .error _ => false

/-! ### Concrete worlds used to instantiate the theorems -/

/-- Comment list with a human comment carrying the marker, a bot comment
without the marker, and two bot comments carrying it (ids 3 and 4). -/
def commentsC2 : List Comment :=
  [⟨1, some "User", some "prefix Go Test Coverage Report suffix"⟩,
   ⟨2, some "Bot", some "hello there"⟩,
   ⟨3, some "Bot", some "xx Go Test Coverage Report yy"⟩,
   ⟨4, some "Bot", some "Go Test Coverage Report"⟩]

/-- World whose comment-list endpoint answers `commentsC2`. -/
def worldC2 : World :=
  ⟨["comment_pr.py", "5", "75.5%", "G", "good", "green"],
   some "tok", some "org/repo", none,
   fun _ => none, fun _ => none,
   fun _ _ => .ok commentsC2,
   fun _ _ _ => true, fun _ _ _ => true⟩

/-- World with a parsable event file naming different head and base
repositories. -/
def worldC3 : World :=
  ⟨["comment_pr.py", "5", "75.5%", "G", "good", "green"],
   some "tok", some "org/repo", some "evt.json",
   fun p => if p = "evt.json" then some "EVT" else none,
   fun c => if c = "EVT" then some ⟨some "alice/repo", some "org/repo"⟩
            else none,
   fun _ _ => .ok [],
   fun _ _ _ => true, fun _ _ _ => true⟩

/-- World whose event file is absent. -/
def worldC4 : World :=
  ⟨["comment_pr.py", "5", "75.5%", "G", "good", "green"],
   some "tok", some "org/repo", some "evt.json",
   fun _ => none, fun _ => none,
   fun _ _ => .ok [],
   fun _ _ _ => true, fun _ _ _ => true⟩

/-- World whose event file parses to a payload with the head repository
name present and the base repository name missing. -/
def worldC4x : World :=
  ⟨["comment_pr.py", "5", "75.5%", "G", "good", "green"],
   some "tok", some "org/repo", some "evt.json",
   fun p => if p = "evt.json" then some "EVT" else none,
   fun c => if c = "EVT" then some ⟨some "alice/repo", none⟩ else none,
   fun _ _ => .ok [],
   fun _ _ _ => true, fun _ _ _ => true⟩

/-- Valid invocation on a fork pull request: the event file parses and
head and base differ. -/
def worldC5 : World :=
  ⟨["comment_pr.py", "5", "75.5%", "G", "good", "green"],
   some "tok", some "org/repo", some "evt.json",
   fun p => if p = "evt.json" then some "EVT" else none,
   fun c => if c = "EVT" then some ⟨some "alice/repo", some "org/repo"⟩
            else none,
   fun _ _ => .ok [],
   fun _ _ _ => true, fun _ _ _ => true⟩

/-- Valid non-fork invocation where the service lists a matching bot
comment whose id is 0. -/
def worldC1 : World :=
  ⟨["comment_pr.py", "5", "75.5%", "G", "good", "green"],
   some "tok", some "org/repo", none,
   fun _ => none, fun _ => none,
   fun _ _ => .ok [⟨0, some "Bot", some "xx Go Test Coverage Report yy"⟩],
   fun _ _ _ => true, fun _ _ _ => true⟩

/-- Valid non-fork invocation where the service lists a matching bot
comment whose id is 7 and the PATCH succeeds. -/
def worldC1w : World :=
  ⟨["comment_pr.py", "5", "75.5%", "G", "good", "green"],
   some "tok", some "org/repo", none,
   fun _ => none, fun _ => none,
   fun _ _ => .ok [⟨7, some "Bot", some "xx Go Test Coverage Report yy"⟩],
   fun _ _ _ => true, fun _ _ _ => true⟩

/-- Invocation whose PR-number argument is not a numeral. -/
def worldC6 : World :=
  ⟨["comment_pr.py", "abc", "75.5%", "G", "good", "green"],
   some "tok", some "org/repo", none,
   fun _ => none, fun _ => none,
   fun _ _ => .ok [],
   fun _ _ _ => true, fun _ _ _ => true⟩

/-- Valid non-fork invocation used to instantiate the zero-id claim: the
listed matching bot comment has id 0 and the POST succeeds. -/
def worldC10 : World :=
  ⟨["comment_pr.py", "9", "80.0%", "G", "excellent", "brightgreen"],
   some "tok", some "org/repo", none,
   fun _ => none, fun _ => none,
   fun _ _ => .ok [⟨0, some "Bot", some "aa Go Test Coverage Report bb"⟩],
   fun _ _ _ => true, fun _ _ _ => true⟩

/-! ### Helper lemmas -/

theorem data_append (a b : String) : (a ++ b).data = a.data ++ b.data := rfl

theorem isPrefixOf_self_append (n suf : List Char) :
    n.isPrefixOf (n ++ suf) = true := by
  induction n with
  | nil => cases suf <;> rfl
  | cons a as ih => simp [List.isPrefixOf, ih]

theorem containsSub_self_append (n suf : List Char) :
    containsSub n (n ++ suf) = true := by
  cases n with
  | nil =>
      cases suf with
      | nil => rfl
      | cons c t => simp [containsSub, List.isPrefixOf]
  | cons a as =>
      show containsSub (a :: as) ((a :: as) ++ suf) = true
      rw [List.cons_append]
      show (List.isPrefixOf (a :: as) (a :: (as ++ suf)) ||
        containsSub (a :: as) (as ++ suf)) = true
      rw [← List.cons_append, isPrefixOf_self_append, Bool.true_or]

theorem containsSub_append_left (n pre hay : List Char)
    (h : containsSub n hay = true) : containsSub n (pre ++ hay) = true := by
  induction pre with
  | nil => simpa using h
  | cons c cs ih =>
      rw [List.cons_append]
      show (List.isPrefixOf n (c :: (cs ++ hay)) ||
        containsSub n (cs ++ hay)) = true
      rw [ih, Bool.or_true]

theorem str_append_assoc (a b c : String) :
    (a ++ b) ++ c = a ++ (b ++ c) :=
  congrArg String.mk (List.append_assoc a.data b.data c.data)

theorem containsStr_intro (s pre pat suf : String)
    (h : s = pre ++ (pat ++ suf)) :
    containsStr s pat = true := by
  subst h
  unfold containsStr
  rw [data_append, data_append]
  exact containsSub_append_left _ _ _ (containsSub_self_append _ _)

theorem noBare_step (l : List Char) :
    noBarePercent ('%' :: '2' :: '5' :: l) = noBarePercent l := by
  show ((('%' != '%') || (['2', '5'].isPrefixOf ('2' :: '5' :: l))) &&
      noBarePercent ('2' :: '5' :: l)) = noBarePercent l
  have h1 : (('%' : Char) != '%') = false := by decide
  have h2 : (['2', '5'].isPrefixOf ('2' :: '5' :: l)) = true := by
    simp [List.isPrefixOf]
  rw [h1, h2, Bool.false_or, Bool.true_and]
  show ((('2' != '%') || (['2', '5'].isPrefixOf ('5' :: l))) &&
      noBarePercent ('5' :: l)) = noBarePercent l
  have h3 : (('2' : Char) != '%') = true := by decide
  rw [h3, Bool.true_or, Bool.true_and]
  show ((('5' != '%') || (['2', '5'].isPrefixOf l)) &&
      noBarePercent l) = noBarePercent l
  have h4 : (('5' : Char) != '%') = true := by decide
  rw [h4, Bool.true_or, Bool.true_and]

theorem noBare_cons_of_ne (c : Char) (l : List Char) (h : ¬ c = '%') :
    noBarePercent (c :: l) = noBarePercent l := by
  show (((c != '%') || (['2', '5'].isPrefixOf l)) && noBarePercent l)
      = noBarePercent l
  have hb : (c != '%') = true := by simpa using h
  rw [hb, Bool.true_or, Bool.true_and]

theorem encodePercent_noBare (s : List Char) :
    noBarePercent (encodePercent s) = true := by
  induction s with
  | nil => rfl
  | cons c rest ih =>
      by_cases h : c = '%'
      · subst h
        show noBarePercent ('%' :: '2' :: '5' :: encodePercent rest) = true
        rw [noBare_step, ih]
      · have he : encodePercent (c :: rest) = c :: encodePercent rest := by
          show (if c = '%' then '%' :: '2' :: '5' :: encodePercent rest
            else c :: encodePercent rest) = c :: encodePercent rest
          rw [if_neg h]
        rw [he, noBare_cons_of_ne c _ h, ih]

theorem is_fork_pr_of_missing (w : World) (path : String)
    (h : w.fs path = none) :
    is_fork_pr w path
      = (false, ["Warning: Could not determine if fork PR: file not found"]) := by
  unfold is_fork_pr
  rw [h]

theorem is_fork_pr_of_unparsable (w : World) (path content : String)
    (h1 : w.fs path = some content)
    (h2 : w.parseEventJson content = none) :
    is_fork_pr w path
      = (false,
         ["Warning: Could not determine if fork PR: JSON decode error"]) := by
  unfold is_fork_pr
  rw [h1]
  show (match w.parseEventJson content with
    | none =>
        (false, ["Warning: Could not determine if fork PR: JSON decode error"])
    | some p => (p.headRepoFullName != p.baseRepoFullName, [])) = _
  rw [h2]

theorem is_fork_pr_of_parsed (w : World) (path content : String)
    (p : EventPayload)
    (h1 : w.fs path = some content)
    (h2 : w.parseEventJson content = some p) :
    is_fork_pr w path = (p.headRepoFullName != p.baseRepoFullName, []) := by
  unfold is_fork_pr
  rw [h1]
  show (match w.parseEventJson content with
    | none =>
        (false, ["Warning: Could not determine if fork PR: JSON decode error"])
    | some p => (p.headRepoFullName != p.baseRepoFullName, [])) = _
  rw [h2]

theorem scanComments_eq_find (cs : List Comment) :
    scanComments cs = (cs.find? commentMatches).map Comment.id := by
  induction cs with
  | nil => rfl
  | cons c rest ih =>
      by_cases h : commentMatches c = true
      · rw [List.find?_cons_of_pos _ h]
        show (if commentMatches c then some c.id else scanComments rest)
          = some c.id
        rw [if_pos h]
      · rw [List.find?_cons_of_neg _ (by simpa using h)]
        show (if commentMatches c then some c.id else scanComments rest)
          = (rest.find? commentMatches).map Comment.id
        rw [if_neg (by simpa using h), ih]

theorem find_existing_requests (w : World) (token repo : String)
    (prNumber : Int) :
    (find_existing_comment w token repo prNumber).requests
      = [Request.getComments repo prNumber] := by
  unfold find_existing_comment
  cases w.listCommentsResponse repo prNumber <;> rfl

theorem find_existing_of_ok (w : World) (token repo : String)
    (prNumber : Int) (comments : List Comment)
    (h : w.listCommentsResponse repo prNumber = .ok comments) :
    find_existing_comment w token repo prNumber
      = ⟨(comments.find? commentMatches).map Comment.id,
         [Request.getComments repo prNumber], []⟩ := by
  unfold find_existing_comment
  rw [h, ← scanComments_eq_find]

theorem find_existing_of_error (w : World) (token repo : String)
    (prNumber : Int) (e : Unit)
    (h : w.listCommentsResponse repo prNumber = .error e) :
    find_existing_comment w token repo prNumber
      = ⟨none, [Request.getComments repo prNumber],
         ["Error fetching comments"]⟩ := by
  unfold find_existing_comment
  rw [h]

theorem post_comment_spec (w : World) (token repo : String) (prNumber : Int)
    (body : String) :
    (post_comment w token repo prNumber body).ok
        = w.postResponse repo prNumber body ∧
    (post_comment w token repo prNumber body).requests
        = [Request.postComment repo prNumber body] := by
  unfold post_comment
  cases w.postResponse repo prNumber body <;> exact ⟨rfl, rfl⟩

theorem update_comment_spec (w : World) (token repo : String)
    (commentId : Int) (body : String) :
    (update_comment w token repo commentId body).ok
        = w.patchResponse repo commentId body ∧
    (update_comment w token repo commentId body).requests
        = [Request.patchComment repo commentId body] := by
  unfold update_comment
  cases w.patchResponse repo commentId body <;> exact ⟨rfl, rfl⟩

theorem mainComment_found (w : World) (prNumber : Int)
    (priorStderr : List String) (n : Int)
    (hfr : (find_existing_comment w (tokenOf w) (repoOf w) prNumber).found
      = some n)
    (hn : ¬ n = 0) :
    mainComment w prNumber priorStderr
      = .ok ⟨if w.patchResponse (repoOf w) n (bodyOf w) then 0 else 1,
          [Request.getComments (repoOf w) prNumber,
           Request.patchComment (repoOf w) n (bodyOf w)],
          ("Found existing comment (ID: " ++ toString n ++ "), updating...")
            :: (update_comment w (tokenOf w) (repoOf w) n (bodyOf w)).stdout,
          priorStderr
            ++ (generate_comment_body w.fs (argOf w 2) (argOf w 3)
                  (argOf w 4) (argOf w 5) (reportPathOf w)).2
            ++ (find_existing_comment w (tokenOf w) (repoOf w)
                  prNumber).stderr
            ++ (update_comment w (tokenOf w) (repoOf w) n
                  (bodyOf w)).stderr⟩ := by
  unfold mainComment
  dsimp only
  rw [hfr]
  have ht : truthyOptInt (some n) = true := by
    show (n != 0) = true
    simpa using hn
  rw [ht]
  simp only [if_true, Option.getD_some]
  rw [find_existing_requests]
  have hu := update_comment_spec w (tokenOf w) (repoOf w) n (bodyOf w)
  unfold bodyOf at hu ⊢
  simp only [hu.1, hu.2]
  rfl

theorem mainComment_notfound (w : World) (prNumber : Int)
    (priorStderr : List String)
    (hfr : truthyOptInt
      (find_existing_comment w (tokenOf w) (repoOf w) prNumber).found
        = false) :
    mainComment w prNumber priorStderr
      = .ok ⟨if w.postResponse (repoOf w) prNumber (bodyOf w) then 0 else 1,
          [Request.getComments (repoOf w) prNumber,
           Request.postComment (repoOf w) prNumber (bodyOf w)],
          "No existing comment found, creating new one..."
            :: (post_comment w (tokenOf w) (repoOf w) prNumber
                  (bodyOf w)).stdout,
          priorStderr
            ++ (generate_comment_body w.fs (argOf w 2) (argOf w 3)
                  (argOf w 4) (argOf w 5) (reportPathOf w)).2
            ++ (find_existing_comment w (tokenOf w) (repoOf w)
                  prNumber).stderr
            ++ (post_comment w (tokenOf w) (repoOf w) prNumber
                  (bodyOf w)).stderr⟩ := by
  unfold mainComment
  dsimp only
  rw [hfr]
  simp only [Bool.false_eq_true, if_false]
  rw [find_existing_requests]
  have hp := post_comment_spec w (tokenOf w) (repoOf w) prNumber (bodyOf w)
  unfold bodyOf at hp ⊢
  simp only [hp.1, hp.2]
  rfl

theorem main_eq_mainComment (w : World) (prNumber : Int)
    (h1 : ¬ w.argv.length < 6)
    (hpr : pyInt? (argOf w 1) = some prNumber)
    (htok : truthyOpt w.githubToken = true)
    (hrepo : truthyOpt w.githubRepository = true)
    (hfork : ((eventPathOf w != "") &&
      (is_fork_pr w (eventPathOf w)).1) = false) :
    main w = mainComment w prNumber
      (if (eventPathOf w != "") then (is_fork_pr w (eventPathOf w)).2
       else []) := by
  unfold main
  rw [if_neg h1, hpr]
  show mainWithArgs w prNumber = _
  unfold mainWithArgs
  rw [htok, hrepo]
  simp only [Bool.true_eq_false, if_false]
  unfold mainChecked
  dsimp only
  rw [hfork]
  simp only [Bool.false_eq_true, if_false]

theorem main_fork_skip (w : World) (prNumber : Int)
    (h1 : ¬ w.argv.length < 6)
    (hpr : pyInt? (argOf w 1) = some prNumber)
    (htok : truthyOpt w.githubToken = true)
    (hrepo : truthyOpt w.githubRepository = true)
    (hep : (eventPathOf w != "") = true)
    (hfork : (is_fork_pr w (eventPathOf w)).1 = true) :
    main w = .ok ⟨0, [], [forkSkipMsg],
      (is_fork_pr w (eventPathOf w)).2⟩ := by
  unfold main
  rw [if_neg h1, hpr]
  show mainWithArgs w prNumber = _
  unfold mainWithArgs
  rw [htok, hrepo]
  simp only [Bool.true_eq_false, if_false]
  unfold mainChecked
  dsimp only
  rw [hep, hfork]
  rfl

/-! ### Claim theorems -/

/-- C2: for every list of comments returned by the service,
`find_existing_comment` returns the id of the first comment in the
returned order whose author account type equals Bot and whose body
contains the marker, skipping human comments and markerless bot comments
even when they appear earlier; it returns none when the list is empty or
no comment matches (`List.find?` of an empty or matchless list), and when
the list request itself fails it returns none and emits a diagnostic. -/
theorem claim_C2_locator (w : World) (token repo : String) (prNumber : Int) :
    (∀ comments, w.listCommentsResponse repo prNumber = .ok comments →
        (find_existing_comment w token repo prNumber).found
          = (comments.find? commentMatches).map Comment.id ∧
        (find_existing_comment w token repo prNumber).stderr = []) ∧
    (∀ e, w.listCommentsResponse repo prNumber = .error e →
        (find_existing_comment w token repo prNumber).found = none ∧
        (find_existing_comment w token repo prNumber).stderr ≠ []) := by
  constructor
  · intro comments hok
    rw [find_existing_of_ok w token repo prNumber comments hok]
    exact ⟨rfl, rfl⟩
  · intro e herr
    rw [find_existing_of_error w token repo prNumber e herr]
    exact ⟨rfl, by simp⟩

/-- C2 witness: on `commentsC2` the locator skips the marker-carrying
human comment and the markerless bot comment and returns id 3, the first
bot comment containing the marker. -/
theorem claim_C2_witness :
    (find_existing_comment worldC2 "tok" "org/repo" 5).found = some 3 := by
  have h := ((claim_C2_locator worldC2 "tok" "org/repo" 5).1 commentsC2 rfl).1
  rw [h]
  rfl

/-- C3: for every event payload that parses successfully, `is_fork_pr`
returns true iff the extracted head repository full name differs from the
base repository full name, including the cases where exactly one of the
two values is absent while the other is present. -/
theorem claim_C3_fork_detection (w : World) (path content : String)
    (p : EventPayload)
    (hread : w.fs path = some content)
    (hparse : w.parseEventJson content = some p) :
    ((is_fork_pr w path).1 = true ↔
      p.headRepoFullName ≠ p.baseRepoFullName) ∧
    (∀ x, p.headRepoFullName = some x → p.baseRepoFullName = none →
      (is_fork_pr w path).1 = true) ∧
    (∀ x, p.headRepoFullName = none → p.baseRepoFullName = some x →
      (is_fork_pr w path).1 = true) := by
  have hb : (is_fork_pr w path).1
      = (p.headRepoFullName != p.baseRepoFullName) := by
    rw [is_fork_pr_of_parsed w path content p hread hparse]
  refine ⟨?_, ?_, ?_⟩
  · rw [hb]
    simp [bne_iff_ne]
  · intro x h1 h2
    rw [hb, h1, h2]
    rfl
  · intro x h1 h2
    rw [hb, h1, h2]
    rfl

/-- C3 witness: head alice/repo against base org/repo is detected as a
fork. -/
theorem claim_C3_witness : (is_fork_pr worldC3 "evt.json").1 = true := by
  have h := claim_C3_fork_detection worldC3 "evt.json" "EVT"
    ⟨some "alice/repo", some "org/repo"⟩ rfl rfl
  exact h.1.mpr (by decide)

/-- C4 counterexample: a payload missing only the base key makes
`is_fork_pr` return true (the run is skipped as a fork) and no
diagnostic is emitted, contradicting the claim that every
missing-key payload yields false with a warning. -/
theorem claim_C4_counterexample :
    (is_fork_pr worldC4x "evt.json").1 = true ∧
    (is_fork_pr worldC4x "evt.json").2 = [] := ⟨rfl, rfl⟩

/-- C4 (amended): when the event file cannot be read or its contents fail
to parse as JSON, `is_fork_pr` returns false (fail-open) and emits a
diagnostic warning rather than raising; a payload that parses but is
missing the keys on both sides also yields false, with no warning (a
payload missing the key on exactly one side instead compares as
different). -/
theorem claim_C4_fail_open (w : World) (path : String) :
    (w.fs path = none →
      (is_fork_pr w path).1 = false ∧ (is_fork_pr w path).2 ≠ []) ∧
    (∀ content, w.fs path = some content →
      w.parseEventJson content = none →
      (is_fork_pr w path).1 = false ∧ (is_fork_pr w path).2 ≠ []) ∧
    (∀ content p, w.fs path = some content →
      w.parseEventJson content = some p →
      p.headRepoFullName = none → p.baseRepoFullName = none →
      (is_fork_pr w path).1 = false ∧ (is_fork_pr w path).2 = []) := by
  refine ⟨?_, ?_, ?_⟩
  · intro h
    rw [is_fork_pr_of_missing w path h]
    exact ⟨rfl, by simp⟩
  · intro content h1 h2
    rw [is_fork_pr_of_unparsable w path content h1 h2]
    exact ⟨rfl, by simp⟩
  · intro content p h1 h2 h3 h4
    rw [is_fork_pr_of_parsed w path content p h1 h2]
    refine ⟨?_, rfl⟩
    show (p.headRepoFullName != p.baseRepoFullName) = false
    rw [h3, h4]
    rfl

/-- C4 witness: a missing event file yields false plus a warning. -/
theorem claim_C4_witness :
    (is_fork_pr worldC4 "evt.json").1 = false ∧
    (is_fork_pr worldC4 "evt.json").2 ≠ [] :=
  (claim_C4_fail_open worldC4 "evt.json").1 rfl

/-- C7: the formatter replaces every percent character of the coverage
string with %25 when building the badge-image URL segment — the encoded
segment embedded in the generated body has no percent left unencoded by
the substitution — while the bold total-coverage line shows the raw,
non-encoded coverage string; the round-trip example 75.5% encodes to
75.5%25. -/
theorem claim_C7_badge_encoding (fs : String → Option String)
    (coverage emoji status badge_color path : String) :
    noBarePercent (pyReplacePercent coverage).data = true ∧
    containsStr
      (generate_comment_body fs coverage emoji status badge_color path).1
      ("![Coverage](https://img.shields.io/badge/coverage-"
        ++ pyReplacePercent coverage ++ "-" ++ badge_color ++ ")") = true ∧
    containsStr
      (generate_comment_body fs coverage emoji status badge_color path).1
      ("**Total Coverage:** `" ++ coverage ++ "` (" ++ status ++ ")")
        = true ∧
    pyReplacePercent "75.5%" = "75.5%25" := by
  refine ⟨encodePercent_noBare coverage.data, ?_, ?_, by decide⟩
  · refine containsStr_intro _
      ("## " ++ emoji ++ " " ++ markerText ++ "\n\n"
        ++ "**Total Coverage:** `" ++ coverage ++ "` (" ++ status ++ ")"
        ++ "\n\n") _
      ("\n\n"
        ++ "<details>\n<summary>üìä Detailed Coverage Report (click to expand)</summary>\n\n"
        ++ (read_file fs path).1
        ++ "\n\n</details>\n\n### Coverage Guidelines\n"
        ++ "- üü¢ >= 80%: Excellent\n"
        ++ "- üü° >= 60%: Good\n"
        ++ "- üü† >= 40%: Fair\n"
        ++ "- üî¥ < 40%: Needs improvement\n\n---\n"
        ++ "*This is an automated coverage report. The coverage requirement is advisory and does not block PR merging.*\n")
      ?_
    simp only [generate_comment_body, str_append_assoc]
  · refine containsStr_intro _
      ("## " ++ emoji ++ " " ++ markerText ++ "\n\n") _
      ("\n\n"
        ++ "![Coverage](https://img.shields.io/badge/coverage-"
        ++ pyReplacePercent coverage ++ "-" ++ badge_color ++ ")"
        ++ "\n\n"
        ++ "<details>\n<summary>üìä Detailed Coverage Report (click to expand)</summary>\n\n"
        ++ (read_file fs path).1
        ++ "\n\n</details>\n\n### Coverage Guidelines\n"
        ++ "- üü¢ >= 80%: Excellent\n"
        ++ "- üü° >= 60%: Good\n"
        ++ "- üü† >= 40%: Fair\n"
        ++ "- üî¥ < 40%: Needs improvement\n\n---\n"
        ++ "*This is an automated coverage report. The coverage requirement is advisory and does not block PR merging.*\n")
      ?_
    simp only [generate_comment_body, str_append_assoc]

/-- C8: for every invocation with the report file missing, the formatter
substitutes the empty string, emits a warning to the diagnostic stream,
never fails, and the generated body equals the body generated from an
empty report file — the detail section is empty while every other
section renders unchanged. -/
theorem claim_C8_missing_report (fs : String → Option String)
    (coverage emoji status badge_color path : String)
    (h : fs path = none) :
    read_file fs path
      = ("", ["Warning: File " ++ path ++ " not found"]) ∧
    (generate_comment_body fs coverage emoji status badge_color path).2
      = ["Warning: File " ++ path ++ " not found"] ∧
    (generate_comment_body fs coverage emoji status badge_color path).1
      = (generate_comment_body (fun q => if q = path then some "" else fs q)
          coverage emoji status badge_color path).1 := by
  have hr : read_file fs path
      = ("", ["Warning: File " ++ path ++ " not found"]) := by
    unfold read_file
    rw [h]
  have hr2 : read_file (fun q => if q = path then some "" else fs q) path
      = ("", []) := by
    unfold read_file
    simp
  refine ⟨hr, ?_, ?_⟩
  · dsimp only [generate_comment_body]
    rw [hr]
  · dsimp only [generate_comment_body]
    rw [hr, hr2]

/-- C8 witness: with no filesystem at all the report read yields the
empty string and the warning line. -/
theorem claim_C8_witness :
    read_file (fun _ => none) "coverage_report.md"
      = ("", ["Warning: File coverage_report.md not found"]) :=
  (claim_C8_missing_report (fun _ => none) "75.5%" "G" "good" "green"
    "coverage_report.md" rfl).1

/-- C9: for every combination of inputs, the generated comment body
contains the literal marker Go Test Coverage Report — the same marker
the locator scans for — so a bot comment whose body is a generated body
satisfies the locator predicate of any subsequent run. -/
theorem claim_C9_marker (fs : String → Option String)
    (coverage emoji status badge_color path : String) (i : Int) :
    containsStr
      (generate_comment_body fs coverage emoji status badge_color path).1
      markerText = true ∧
    commentMatches
      ⟨i, some "Bot",
       some (generate_comment_body fs coverage emoji status
         badge_color path).1⟩ = true := by
  have h1 : containsStr
      (generate_comment_body fs coverage emoji status badge_color path).1
      markerText = true := by
    refine containsStr_intro _ ("## " ++ emoji ++ " ") _
      ("\n\n"
        ++ "**Total Coverage:** `" ++ coverage ++ "` (" ++ status ++ ")"
        ++ "\n\n"
        ++ "![Coverage](https://img.shields.io/badge/coverage-"
        ++ pyReplacePercent coverage ++ "-" ++ badge_color ++ ")"
        ++ "\n\n"
        ++ "<details>\n<summary>üìä Detailed Coverage Report (click to expand)</summary>\n\n"
        ++ (read_file fs path).1
        ++ "\n\n</details>\n\n### Coverage Guidelines\n"
        ++ "- üü¢ >= 80%: Excellent\n"
        ++ "- üü° >= 60%: Good\n"
        ++ "- üü† >= 40%: Fair\n"
        ++ "- üî¥ < 40%: Needs improvement\n\n---\n"
        ++ "*This is an automated coverage report. The coverage requirement is advisory and does not block PR merging.*\n")
      ?_
    simp only [generate_comment_body, str_append_assoc]
  refine ⟨h1, ?_⟩
  show ((some "Bot" == some "Bot") &&
    containsStr ((some (generate_comment_body fs coverage emoji status
      badge_color path).1).getD "") markerText) = true
  rw [Option.getD_some]
  rw [h1]
  rfl

set_option maxRecDepth 40000 in
/-- C1 counterexample: a valid non-fork invocation where the locator does
return a comment ID — namely 0 — yet the script issues one POST and zero
PATCH requests, contradicting the claim that whenever the locator
returns a comment ID the script issues zero POSTs and one PATCH to that
ID. -/
theorem claim_C1_counterexample :
    (find_existing_comment worldC1 "tok" "org/repo" 5).found = some 0 ∧
    requestsOfE (main worldC1)
      = [Request.getComments "org/repo" 5,
         Request.postComment "org/repo" 5 (bodyOf worldC1)] ∧
    exitOfE (main worldC1) = 0 := by
  refine ⟨by decide, by decide, by decide⟩

/-- C1 (amended): for every non-fork invocation with valid arguments and
credentials, if the locator returns no comment or the (untruthy) comment
ID 0, the script issues exactly one POST to the comments endpoint of the
PR and zero PATCH requests; if the locator returns a nonzero comment ID,
it issues zero POSTs and exactly one PATCH addressed to that ID; in
either case the exit code is 0 when the write reported success and 1
otherwise. -/
theorem claim_C1_create_or_update (w : World) (prNumber : Int)
    (h1 : ¬ w.argv.length < 6)
    (hpr : pyInt? (argOf w 1) = some prNumber)
    (htok : truthyOpt w.githubToken = true)
    (hrepo : truthyOpt w.githubRepository = true)
    (hfork : ((eventPathOf w != "") &&
      (is_fork_pr w (eventPathOf w)).1) = false) :
    (∀ n, (find_existing_comment w (tokenOf w) (repoOf w) prNumber).found
        = some n → ¬ n = 0 →
      requestsOfE (main w)
        = [Request.getComments (repoOf w) prNumber,
           Request.patchComment (repoOf w) n (bodyOf w)] ∧
      exitOfE (main w)
        = (if w.patchResponse (repoOf w) n (bodyOf w) then 0 else 1)) ∧
    (((find_existing_comment w (tokenOf w) (repoOf w) prNumber).found
        = none ∨
      (find_existing_comment w (tokenOf w) (repoOf w) prNumber).found
        = some 0) →
      requestsOfE (main w)
        = [Request.getComments (repoOf w) prNumber,
           Request.postComment (repoOf w) prNumber (bodyOf w)] ∧
      exitOfE (main w)
        = (if w.postResponse (repoOf w) prNumber (bodyOf w) then 0
           else 1)) := by
  have hm := main_eq_mainComment w prNumber h1 hpr htok hrepo hfork
  constructor
  · intro n hf hn
    rw [hm, mainComment_found w prNumber _ n hf hn]
    exact ⟨rfl, rfl⟩
  · intro hf
    have hng : truthyOptInt
        (find_existing_comment w (tokenOf w) (repoOf w) prNumber).found
          = false := by
      rcases hf with hf | hf <;> rw [hf] <;> decide
    rw [hm, mainComment_notfound w prNumber _ hng]
    exact ⟨rfl, rfl⟩

/-- C1 witness: on a valid non-fork world listing a matching bot comment
with id 7 and a succeeding PATCH, the run issues the GET and the PATCH to
id 7 and exits 0. -/
theorem claim_C1_witness :
    requestsOfE (main worldC1w)
      = [Request.getComments "org/repo" 5,
         Request.patchComment "org/repo" 7 (bodyOf worldC1w)] ∧
    exitOfE (main worldC1w) = 0 := by
  have h := (claim_C1_create_or_update worldC1w 5 (by decide) (by decide)
    (by decide) (by decide) (by decide)).1 7 (by decide) (by decide)
  exact ⟨h.1, h.2⟩

/-- C5: for every invocation with valid arguments and credentials whose
event payload indicates a fork PR, the process prints the informational
message, exits with code 0, and issues zero HTTP requests. -/
theorem claim_C5_fork_skip (w : World) (prNumber : Int)
    (h1 : ¬ w.argv.length < 6)
    (hpr : pyInt? (argOf w 1) = some prNumber)
    (htok : truthyOpt w.githubToken = true)
    (hrepo : truthyOpt w.githubRepository = true)
    (hep : (eventPathOf w != "") = true)
    (hfork : (is_fork_pr w (eventPathOf w)).1 = true) :
    exitOfE (main w) = 0 ∧ requestsOfE (main w) = [] ∧
    stdoutOfE (main w) = [forkSkipMsg] := by
  rw [main_fork_skip w prNumber h1 hpr htok hrepo hep hfork]
  exact ⟨rfl, rfl, rfl⟩

/-- C5 witness: a concrete fork invocation exits 0 with no requests and
the informational line. -/
theorem claim_C5_witness :
    exitOfE (main worldC5) = 0 ∧ requestsOfE (main worldC5) = [] ∧
    stdoutOfE (main worldC5) = [forkSkipMsg] :=
  claim_C5_fork_skip worldC5 5 (by decide) (by decide) (by decide)
    (by decide) (by decide) (by decide)

/-- C6: the claim states that no exception ever escapes to the process
boundary uncaught.  Evaluating `main` at an invocation whose PR-number
argument is not a numeral shows the run aborting through the uncaught
ValueError raised by `int(sys.argv[1])` instead of reaching the exit-code
decision point: the unguarded conversion is a slip against the defensive
wrapping the script applies to every other external interaction. -/
theorem claim_C6_uncaught_valueerror :
    completedOk (main worldC6) = false := by
  decide

/-- C10: the orchestrator chooses update-vs-create by testing the located
comment ID for truthiness: when the locator returns a matching comment
whose numeric ID is 0, the script treats it as no existing comment,
prints the creating-new line, and issues a POST creating a new comment
instead of a PATCH to ID 0. -/
theorem claim_C10_zero_id_truthiness (w : World) (prNumber : Int)
    (h1 : ¬ w.argv.length < 6)
    (hpr : pyInt? (argOf w 1) = some prNumber)
    (htok : truthyOpt w.githubToken = true)
    (hrepo : truthyOpt w.githubRepository = true)
    (hfork : ((eventPathOf w != "") &&
      (is_fork_pr w (eventPathOf w)).1) = false)
    (hf : (find_existing_comment w (tokenOf w) (repoOf w) prNumber).found
      = some 0) :
    requestsOfE (main w)
      = [Request.getComments (repoOf w) prNumber,
         Request.postComment (repoOf w) prNumber (bodyOf w)] ∧
    stdoutOfE (main w)
      = "No existing comment found, creating new one..."
          :: (post_comment w (tokenOf w) (repoOf w) prNumber
                (bodyOf w)).stdout := by
  have hng : truthyOptInt
      (find_existing_comment w (tokenOf w) (repoOf w) prNumber).found
        = false := by
    rw [hf]
    decide
  rw [main_eq_mainComment w prNumber h1 hpr htok hrepo hfork,
    mainComment_notfound w prNumber _ hng]
  exact ⟨rfl, rfl⟩

/-- C10 witness: on a world listing a matching bot comment with id 0 the
run issues the GET and then a POST, never a PATCH. -/
theorem claim_C10_witness :
    requestsOfE (main worldC10)
      = [Request.getComments "org/repo" 9,
         Request.postComment "org/repo" 9 (bodyOf worldC10)] :=
  (claim_C10_zero_id_truthiness worldC10 9 (by decide) (by decide)
    (by decide) (by decide) (by decide) (by decide)).1

end CommentPr
